import Mathlib

/-
Verification of the ml_agent_bench action-execution core.

The development shallowly embeds the dispatcher (environment.py) and the
low-level file/process actions (low_level_actions.py).  Python mutation is
made explicit: values that the source mutates in place are threaded through
the functions, and the deep copy performed by the trace property is modelled
by value semantics (the copy is the value itself, and mutating the copy
leaves the environment record unchanged).  Wall-clock time is passed in as
an explicit integer argument, and the awaited handler call inside execute is
parametrised by its outcome, since the handlers perform I/O.
-/

set_option autoImplicit false

namespace MLAgentBench

/-! ### String primitives

Python string operations (startswith, endswith, split, strip, ascending
sort) are modelled by structurally recursive functions over the character
lists, so that every definition evaluates inside the kernel. -/

/-- str.startswith. -/
def strStartsWith (s p : String) : Bool :=
  List.isPrefixOf p.toList s.toList

/-- str.endswith. -/
def strEndsWith (s p : String) : Bool :=
  List.isSuffixOf p.toList s.toList

def splitCharAux (c : Char) : List Char → List Char → List (List Char)
  | [], acc => [acc.reverse]
  | x :: xs, acc =>
    if x = c then acc.reverse :: splitCharAux c xs []
    else splitCharAux c xs (x :: acc)

/-- str.split on a single-character separator. -/
def strSplitOn (c : Char) (s : String) : List String :=
  (splitCharAux c s.toList []).map String.mk

def isPySpace (c : Char) : Bool :=
  c = ' ' ∨ c = '\t' ∨ c = '\n' ∨ c = '\x0b' ∨ c = '\x0c' ∨ c = '\r'

/-- str.strip with no arguments: remove leading and trailing whitespace. -/
def strStrip (s : String) : String :=
  String.mk (((s.toList.dropWhile isPySpace).reverse.dropWhile isPySpace).reverse)

/-- Code-point lexicographic comparison, as Python compares strings. -/
def charListLtb : List Char → List Char → Bool
  | [], [] => false
  | [], _ :: _ => true
  | _ :: _, [] => false
  | a :: as, b :: bs =>
    if a.toNat < b.toNat then true
    else if b.toNat < a.toNat then false
    else charListLtb as bs

def strLeb (a b : String) : Bool :=
  ! charListLtb b.toList a.toList

def insertSorted (x : String) : List String → List String
  | [] => [x]
  | y :: ys => if strLeb x y then x :: y :: ys else y :: insertSorted x ys

/-- list.sort(): stable ascending sort. -/
def sortStrings : List String → List String
  | [] => []
  | x :: xs => insertSorted x (sortStrings xs)

/-! ### POSIX path functions used by the source (os.path.join, normpath, abspath) -/

/-- posixpath.join for two components, as used at every call site of the
form os.path.join(work_dir, name). -/
def posixJoin (a b : String) : String :=
  if strStartsWith b "/" then b
  else if a = "" ∨ strEndsWith a "/" then a ++ b
  else a ++ "/" ++ b

/-- posixpath.normpath: purely lexical normalisation of a path, collapsing
empty components and single dots and resolving double dots against earlier
components.  Symbolic links are not resolved, exactly as in the source. -/
def posixNormpath (path : String) : String :=
  if path = "" then "."
  else
    let initialSlashes : Nat :=
      if strStartsWith path "/" then
        if strStartsWith path "//" ∧ ¬ strStartsWith path "///" then 2 else 1
      else 0
    let comps := strSplitOn '/' path
    let newComps := comps.foldl (fun acc comp =>
      if comp = "" ∨ comp = "." then acc
      else if comp ≠ ".." ∨ (initialSlashes = 0 ∧ acc = []) ∨ (acc.getLast? = some "..") then
        acc ++ [comp]
      else if acc ≠ [] then acc.dropLast
      else acc) []
    let joined := String.intercalate "/" newComps
    let prefixed := String.mk (List.replicate initialSlashes '/') ++ joined
    if prefixed = "" then "." else prefixed

/-- os.path.abspath relative to an explicit current working directory:
join with cwd when the path is relative, then normpath. -/
def posixAbspath (cwd path : String) : String :=
  posixNormpath (if strStartsWith path "/" then path else posixJoin cwd path)

/-! ### Data model (schema.py) -/

/-- The args field of an Action is dict[str, Any] in the source, but execute
checks isinstance(action.args, dict) at runtime, so a malformed non-dict
value must be representable.  Argument values are modelled as strings. -/
inductive PyArgs where
  | dict (entries : List (String × String))
  | notDict (repr : String)
deriving Repr, DecidableEq

structure Action where
  name : String
  args : PyArgs
deriving Repr, DecidableEq

structure Step where
  action : Action
  observation : String
  timestamp : Int
deriving Repr, DecidableEq

/-- ActionInfo from schema.py.  The function field (the handler coroutine)
is not a value of the embedding; the outcome of awaiting it is passed to
execute as an explicit parameter. -/
structure ActionInfo where
  name : String
  description : String
  usage : List (String × String)
  return_value : String
  is_low_level : Bool
deriving Repr, DecidableEq

structure Trace where
  steps : List Step
  low_level_steps : List Step
  action_infos : List ActionInfo
  task_description : String
deriving Repr, DecidableEq

/-! ### Environment (environment.py) -/

/-- The mutable state of an Environment instance that the claims concern:
the privately held trace, the start time, and the step and time budgets.
The action-info registry is carried as a list keyed by name; the source
builds it from LOW_LEVEL_ACTION_INFOS plus HIGH_LEVEL_ACTION_INFOS (the
latter from a module that is not part of the sources), so the theorems
quantify over the registry. -/
structure Environment where
  trace_internal : Trace
  start_time : Int
  max_steps : Nat
  max_time : Int
  action_infos : List ActionInfo
deriving Repr, DecidableEq

/-- The trace property returns copy.deepcopy(self._trace).  Under value
semantics the deep copy is the value itself; the essential consequence is
that mutating the returned value never changes trace_internal. -/
def Environment.trace (env : Environment) : Trace :=
  env.trace_internal

/-- Environment.is_final: maximum steps reached, some recorded step is a
Final Answer, or elapsed wall-clock time strictly exceeds max_time (the
source comparison is time.time() - self._start_time > self._args.max_time). -/
def Environment.is_final (env : Environment) (now : Int) : Bool :=
  let curr_step := env.trace.steps.length
  let any_final_answer := env.trace.steps.any (fun s => s.action.name == "Final Answer")
  decide (curr_step ≥ env.max_steps) || any_final_answer
    || decide (now - env.start_time > env.max_time)

def shutdown_observation : String :=
  "The environment has shut down because the maximum number of steps or time has been reached. Please submit your final answer."

def invalid_action_observation (name : String) (infos : List ActionInfo) : String :=
  let actions := String.intercalate ", " (infos.map (fun i => i.name))
  "Invalid action: " ++ name ++ ". ActionInfo did not execute. Please use one of the following actions:\n" ++ actions

def usage_block (info : ActionInfo) : String :=
  let usage := String.intercalate ",\n            "
    (info.usage.map (fun kv => kv.1 ++ ": [" ++ kv.2 ++ "]"))
  "\x7b\n            " ++ usage ++ "\n\x7d"

def invalid_action_error (name : String) (info : ActionInfo) : String :=
  "The action input for " ++ name ++ " needs to be a valid json with proper entries. You may have missed the comma between entries. Please use the correct format and try again:\n" ++ usage_block info

def find_action_info (infos : List ActionInfo) (name : String) : Option ActionInfo :=
  infos.find? (fun i => i.name == name)

/-- The exceptions distinguished by the except chain in Environment.execute. -/
inductive PyExn where
  | tooLongPrompt
  | llmError (message : String)
  | envException (message : String)
  | typeError (message : String)
  | timeout (message : String)
  | other (message : String)
deriving Repr, DecidableEq

/-- Outcome of awaiting the registered handler coroutine. -/
inductive HandlerOutcome where
  | ok (observation : String)
  | raises (e : PyExn)
deriving Repr, DecidableEq

/-- How a call to execute terminates: a normal return with an observation,
or one of the two exceptions the except chain re-raises. -/
inductive ExecResult where
  | returns (observation : String)
  | raisesTimeout (message : String)
  | raisesConnectionAborted
deriving Repr, DecidableEq

structure ExecOutcome where
  result : ExecResult
  handlerInvoked : Bool
  envAfter : Environment
deriving Repr, DecidableEq

/-- The test performed on a generic exception: "Connection aborted." in str(e). -/
def connection_aborted_in (s : String) : Bool :=
  decide (List.IsInfix ("Connection aborted.".toList) s.toList)

/-- The except chain of Environment.execute, applied to the handler outcome. -/
def handler_result (action_name : String) (invalid_err : String) :
    HandlerOutcome → ExecResult
  | .ok obs => .returns obs
  | .raises .tooLongPrompt => .returns "EnvError: too long input for the tool"
  | .raises (.llmError m) => .returns ("LLMError: " ++ m)
  | .raises (.envException m) => .returns ("EnvError: " ++ m)
  | .raises (.typeError _) => .returns ("EnvError: " ++ invalid_err)
  | .raises (.timeout m) => .raisesTimeout m
  | .raises (.other m) =>
      if connection_aborted_in m then .raisesConnectionAborted
      else .returns ("EnvError: Error executing " ++ action_name ++ ".")

/-- Environment.execute.  The branch structure follows the source: the
Final Answer test comes first, then is_final, then registry membership,
then the isinstance dict check, then the handler call with its except
chain.  The final statement self.trace.steps.append(...) mutates the deep
copy produced by the trace property, so the environment record itself is
returned unchanged. -/
def Environment.execute (env : Environment) (action : Action) (now : Int)
    (handler : HandlerOutcome) : ExecOutcome :=
  if action.name == "Final Answer" then ⟨.returns "end", false, env⟩
  else if env.is_final now then ⟨.returns shutdown_observation, false, env⟩
  else
    match find_action_info env.action_infos action.name with
    | none => ⟨.returns (invalid_action_observation action.name env.action_infos), false, env⟩
    | some info =>
      match action.args with
      | .dict _ =>
        ⟨handler_result action.name (invalid_action_error action.name info) handler, true, env⟩
      | .notDict _ => ⟨.returns (invalid_action_error action.name info), false, env⟩

/-! ### Sandbox world model (the inspect_ai sandbox collaborator)

The sandbox exposes exec, read_file and write_file.  The world records the
sandbox file system (keyed by lexically normalised path), the host file
system (where the backup directory lives: glob, open and os.remove in
undo_edit_script run on the host), and an append-only log of every exec and
write_file call issued, so that the theorems can speak about which executor
calls an operation makes. -/

structure SandboxResult where
  stdout : String
  stderr : String
  returncode : Int
deriving Repr, DecidableEq

structure ExecCall where
  cmd : List String
  cwd : Option String
  env : List (String × String)
deriving Repr, DecidableEq

structure World where
  cwd : String
  files : List (String × String)
  hostFiles : List (String × String)
  execCalls : List ExecCall
  writeCalls : List (String × String)
  scriptResult : SandboxResult
deriving Repr, DecidableEq

def assocGet (key : String) (l : List (String × String)) : Option String :=
  (l.find? (fun kv => kv.1 == key)).map (fun kv => kv.2)

def assocSet (key value : String) (l : List (String × String)) : List (String × String) :=
  if (l.find? (fun kv => kv.1 == key)).isSome then
    l.map (fun kv => if kv.1 == key then (kv.1, value) else kv)
  else l ++ [(key, value)]

/-- Look up a sandbox file; the sandbox resolves the path lexically. -/
def World.fsGet (w : World) (p : String) : Option String :=
  assocGet (posixNormpath p) w.files

/-- Kernel-level write into the sandbox file system (used by write_file and
by a successful cp). -/
def World.fsPut (w : World) (p content : String) : World :=
  { w with files := assocSet (posixNormpath p) content w.files }

/-- sandbox().write_file: logged, then performed. -/
def World.sbWriteFile (w : World) (p content : String) : World :=
  ({ w with writeCalls := w.writeCalls ++ [(p, content)] }).fsPut p content

/-- sandbox().read_file: returns the content, or none when the file does not
exist (the Python call raises FileNotFoundError in that case). -/
def World.sbReadFile (w : World) (p : String) : Option String :=
  w.fsGet p

/-- Directory listing produced by ls -F: the names of files lying under the
directory, one per line. -/
def World.lsListing (w : World) (p : String) : String :=
  let d := posixNormpath p
  String.intercalate "\n"
    ((w.files.filter (fun kv => strStartsWith kv.1 (d ++ "/") ∨ kv.1 == d)).map (fun kv => kv.1))

/-- sandbox().exec: every call is appended to the log; the semantics of the
commands the source issues (ls -F, ls, cat, cp) are modelled directly, and
any other command is the script run, whose result is the oracle stored in
the world.  exec never raises: failures surface as a non-zero returncode. -/
def World.sbExec (w : World) (cmd : List String) (cwd : Option String)
    (envv : List (String × String)) : SandboxResult × World :=
  let w1 := { w with execCalls := w.execCalls ++ [⟨cmd, cwd, envv⟩] }
  match cmd with
  | [a, p] =>
    if a = "ls" then
      if (w.fsGet p).isSome then (⟨p ++ "\n", "", 0⟩, w1)
      else (⟨"", "ls: cannot access " ++ p ++ ": No such file or directory", 2⟩, w1)
    else if a = "cat" then
      match w.fsGet p with
      | some c => (⟨c, "", 0⟩, w1)
      | none => (⟨"", "cat: " ++ p ++ ": No such file or directory", 1⟩, w1)
    else (w.scriptResult, w1)
  | [a, b, c] =>
    if b = "-u" then (w.scriptResult, w1)
    else if b = "-F" ∧ a = "ls" then (⟨w.lsListing c, "", 0⟩, w1)
    else if a = "cp" then
      match w.fsGet b with
      | some content => (⟨"", "", 0⟩, w1.fsPut c content)
      | none => (⟨"", "cp: cannot stat " ++ b, 1⟩, w1)
    else (w.scriptResult, w1)
  | _ => (w.scriptResult, w1)

/-! ### Guard decorators (low_level_actions.py) -/

/-- check_files_in_work_dir: for each guarded argument, os.path.abspath of
work_dir joined with the argument must have os.path.abspath(work_dir) as a
string prefix; the first violation raises an EnvException whose message
names the offending argument.  Returns that message, or none. -/
def check_files_in_work_dir (cwd work_dir : String) (file_names : List String) :
    Option String :=
  file_names.findSome? (fun file_name =>
    let file_path := posixAbspath cwd (posixJoin work_dir file_name)
    let work_dir_path := posixAbspath cwd work_dir
    if ¬ strStartsWith file_path work_dir_path then
      some ("cannot access file " ++ file_name ++ " because it is not in the work directory.")
    else none)

/-- check_files_read_only: raises an EnvException when the raw argument
string is an element of the read_only_files list.  Returns the message of
the first violating argument, or none. -/
def check_files_read_only (file_names : List String) (read_only_files : List String) :
    Option String :=
  file_names.findSome? (fun fname =>
    if fname ∈ read_only_files then
      some ("cannot write file " ++ fname ++ " because it is a read-only file.")
    else none)

/-! ### The record_low_level_step decorator -/

/-- How the wrapped body of a low-level action terminates.  Every body wraps
its work in try/except Exception and re-raises EnvException, so envException
is the only error that actually reaches the decorator; osError stands for a
raw EnvironmentError (OSError) escaping the body, which the decorator would
catch, record and convert, but which no body in the source ever produces. -/
inductive BodyResult where
  | ok (observation : String)
  | envException (message : String)
  | osError (message : String)
deriving Repr, DecidableEq

/-- A low-level operation terminates with an observation or with an
EnvException carrying a message. -/
inductive LowResult where
  | ok (observation : String)
  | envError (message : String)
deriving Repr, DecidableEq

/-- record_low_level_step, given the action name and the normalized
arguments filtered to the usage keys.  A successful body has its
observation recorded; an EnvironmentError would be recorded and converted
to an EnvException; an EnvException is not caught by except
EnvironmentError, so it propagates with nothing recorded. -/
def record_low_level_step (name : String) (args : List (String × String))
    (now : Int) (trace : Trace) : BodyResult → LowResult × Trace
  | .ok obs =>
    (.ok obs,
      { trace with low_level_steps :=
          trace.low_level_steps ++ [⟨⟨name, .dict args⟩, obs, now⟩] })
  | .osError m =>
    (.envError m,
      { trace with low_level_steps :=
          trace.low_level_steps ++ [⟨⟨name, .dict args⟩, m, now⟩] })
  | .envException m => (.envError m, trace)

/-! ### Bodies of the low-level actions.

Each body models the code inside the decorators.  Where the source wraps
its work in try/except Exception and re-raises EnvException, the model
returns envException directly; the sandbox calls themselves never raise in
the model (exec reports failures through returncode, and a missing file in
sandbox().read_file is the none case, standing for FileNotFoundError). -/

def list_files_inner (dir_path work_dir : String) (w : World) : BodyResult × World :=
  let (result, w1) := w.sbExec ["ls", "-F", posixJoin work_dir dir_path] none []
  (.ok result.stdout, w1)

def read_file_inner (file_name work_dir : String) (w : World) : BodyResult × World :=
  let (result, w1) := w.sbExec ["cat", posixJoin work_dir file_name] none []
  (.ok result.stdout, w1)

def write_file_inner (file_name content work_dir : String) (w : World) :
    BodyResult × World :=
  let w1 := w.sbWriteFile (posixJoin work_dir file_name) content
  (.ok ("File " ++ file_name ++ " written successfully."), w1)

def append_file_inner (file_name content work_dir : String) (w : World) :
    BodyResult × World :=
  match w.sbReadFile (posixJoin work_dir file_name) with
  | none => (.envException ("cannot append file " ++ file_name), w)
  | some existing_content =>
    let w1 := w.sbWriteFile (posixJoin work_dir file_name) (existing_content ++ content)
    (.ok ("File " ++ file_name ++ " appended successfully."), w1)

/-- The cp result is not inspected by the source, so the observation reports
success whether or not cp succeeded. -/
def copy_file_inner (source destination work_dir : String) (w : World) :
    BodyResult × World :=
  let (_, w1) := w.sbExec ["cp", posixJoin work_dir source, posixJoin work_dir destination] none []
  (.ok ("File " ++ source ++ " copied to " ++ destination), w1)

/-- glob.glob(os.path.join(work_dir, "backup", script_name + "_*")) on the
host file system: names extending the pattern stem without crossing a
directory separator. -/
def glob_backup_files (w : World) (work_dir script_name : String) : List String :=
  let stem := posixJoin (posixJoin work_dir "backup") (script_name ++ "_")
  (w.hostFiles.map (fun kv => kv.1)).filter (fun n =>
    strStartsWith n stem ∧ ¬ (n.drop stem.length).toList.contains '/')

def undo_edit_script_inner (script_name work_dir : String) (w : World) :
    BodyResult × World :=
  let backup_files := glob_backup_files w work_dir script_name
  if backup_files.length = 0 then (.envException "There is no change to undo.", w)
  else
    let sorted := sortStrings backup_files
    let backup_file := sorted.getLastD ""
    match assocGet backup_file w.hostFiles with
    | none =>
      (.envException ("Cannot undo the edit of file name " ++ script_name ++ ". Check the file name again."), w)
    | some contents =>
      let w1 := w.sbWriteFile (posixJoin work_dir script_name) contents
      let w2 := { w1 with hostFiles := w1.hostFiles.filter (fun kv => kv.1 ≠ backup_file) }
      match w2.sbReadFile (posixJoin work_dir script_name) with
      | some new_content =>
        (.ok ("Content of " ++ script_name ++ " after undo the most recent edit:\n" ++ new_content), w2)
      | none =>
        (.envException ("Cannot undo the edit of file name " ++ script_name ++ ". Check the file name again."), w2)

/-- The existence probe is the sandbox exec of ls on the joined path, and
the script run is the sandbox exec of the python command with the
CUDA_VISIBLE_DEVICES variable injected and work_dir as cwd. -/
def execute_script_inner (script_name work_dir : String) (device : Int)
    (python : String) (w : World) : BodyResult × World :=
  let (result, w1) := w.sbExec ["ls", posixJoin work_dir script_name] none []
  if strStrip result.stdout = "" then
    (.envException ("The file " ++ script_name ++ " does not exist."), w1)
  else
    let (res, w2) := w1.sbExec [python, "-u", script_name] (some work_dir)
      [("CUDA_VISIBLE_DEVICES", toString device)]
    let observation :=
      if res.returncode ≠ 0 then res.stderr
      else if res.stdout = "" then res.stderr else res.stdout
    (.ok ("The script has been executed. Here is the output:\n" ++ observation), w2)

/-! ### The decorated low-level actions.

Decorators apply outside-in exactly as stacked in the source:
check_files_in_work_dir first, then (for the mutating actions)
check_files_read_only, then record_low_level_step around the body. -/

def list_files (dir_path work_dir : String) (now : Int) (trace : Trace) (w : World) :
    LowResult × World × Trace :=
  match check_files_in_work_dir w.cwd work_dir [dir_path] with
  | some msg => (.envError msg, w, trace)
  | none =>
    let (res, w1) := list_files_inner dir_path work_dir w
    let (r, trace1) := record_low_level_step "List Files" [("dir_path", dir_path)] now trace res
    (r, w1, trace1)

def read_file (file_name work_dir : String) (now : Int) (trace : Trace) (w : World) :
    LowResult × World × Trace :=
  match check_files_in_work_dir w.cwd work_dir [file_name] with
  | some msg => (.envError msg, w, trace)
  | none =>
    let (res, w1) := read_file_inner file_name work_dir w
    let (r, trace1) := record_low_level_step "Read File" [("file_name", file_name)] now trace res
    (r, w1, trace1)

def write_file (file_name content work_dir : String) (read_only_files : List String)
    (now : Int) (trace : Trace) (w : World) : LowResult × World × Trace :=
  match check_files_in_work_dir w.cwd work_dir [file_name] with
  | some msg => (.envError msg, w, trace)
  | none =>
    match check_files_read_only [file_name] read_only_files with
    | some msg => (.envError msg, w, trace)
    | none =>
      let (res, w1) := write_file_inner file_name content work_dir w
      let (r, trace1) := record_low_level_step "Write File"
        [("file_name", file_name), ("content", content)] now trace res
      (r, w1, trace1)

def append_file (file_name content work_dir : String) (read_only_files : List String)
    (now : Int) (trace : Trace) (w : World) : LowResult × World × Trace :=
  match check_files_in_work_dir w.cwd work_dir [file_name] with
  | some msg => (.envError msg, w, trace)
  | none =>
    match check_files_read_only [file_name] read_only_files with
    | some msg => (.envError msg, w, trace)
    | none =>
      let (res, w1) := append_file_inner file_name content work_dir w
      let (r, trace1) := record_low_level_step "Append File"
        [("file_name", file_name), ("content", content)] now trace res
      (r, w1, trace1)

def copy_file (source destination work_dir : String) (read_only_files : List String)
    (now : Int) (trace : Trace) (w : World) : LowResult × World × Trace :=
  match check_files_in_work_dir w.cwd work_dir [source, destination] with
  | some msg => (.envError msg, w, trace)
  | none =>
    match check_files_read_only [destination] read_only_files with
    | some msg => (.envError msg, w, trace)
    | none =>
      let (res, w1) := copy_file_inner source destination work_dir w
      let (r, trace1) := record_low_level_step "Copy File"
        [("source", source), ("destination", destination)] now trace res
      (r, w1, trace1)

def undo_edit_script (script_name work_dir : String) (now : Int) (trace : Trace)
    (w : World) : LowResult × World × Trace :=
  match check_files_in_work_dir w.cwd work_dir [script_name] with
  | some msg => (.envError msg, w, trace)
  | none =>
    let (res, w1) := undo_edit_script_inner script_name work_dir w
    let (r, trace1) := record_low_level_step "Undo Edit Script"
      [("script_name", script_name)] now trace res
    (r, w1, trace1)

def execute_script (script_name work_dir : String) (device : Int) (python : String)
    (now : Int) (trace : Trace) (w : World) : LowResult × World × Trace :=
  match check_files_in_work_dir w.cwd work_dir [script_name] with
  | some msg => (.envError msg, w, trace)
  | none =>
    let (res, w1) := execute_script_inner script_name work_dir device python w
    let (r, trace1) := record_low_level_step "Execute Script"
      [("script_name", script_name)] now trace res
    (r, w1, trace1)

/-! ### A uniform view of the low-level operations, for quantified claims -/

inductive LowOp where
  | listFilesOp (dir_path : String)
  | readFileOp (file_name : String)
  | writeFileOp (file_name content : String)
  | appendFileOp (file_name content : String)
  | copyFileOp (source destination : String)
  | undoEditScriptOp (script_name : String)
  | executeScriptOp (script_name : String) (device : Int) (python : String)
deriving Repr, DecidableEq

/-- The argument list each operation passes to check_files_in_work_dir,
read off the decorator stacks in the source. -/
def LowOp.guardedArgs : LowOp → List String
  | .listFilesOp d => [d]
  | .readFileOp f => [f]
  | .writeFileOp f _ => [f]
  | .appendFileOp f _ => [f]
  | .copyFileOp s d => [s, d]
  | .undoEditScriptOp s => [s]
  | .executeScriptOp s _ _ => [s]

def runLowOp (op : LowOp) (work_dir : String) (read_only_files : List String)
    (now : Int) (trace : Trace) (w : World) : LowResult × World × Trace :=
  match op with
  | .listFilesOp d => list_files d work_dir now trace w
  | .readFileOp f => read_file f work_dir now trace w
  | .writeFileOp f c => write_file f c work_dir read_only_files now trace w
  | .appendFileOp f c => append_file f c work_dir read_only_files now trace w
  | .copyFileOp s d => copy_file s d work_dir read_only_files now trace w
  | .undoEditScriptOp s => undo_edit_script s work_dir now trace w
  | .executeScriptOp s dev py => execute_script s work_dir dev py now trace w

/-- Modelled from the spec: the backup push performed by the high-level
edit action (high_level_actions.py is not among the sources, which hold
only its call sites).  Before a mutating edit to a script, the
pre-edit content is snapshotted on the host under work_dir/backup as the
script name followed by an underscore and an incrementing sequence number,
and then the new content is written to the script. -/
def push_backup_and_edit (work_dir script_name : String) (seq : Nat)
    (new_content : String) (w : World) : World :=
  let current := (w.sbReadFile (posixJoin work_dir script_name)).getD ""
  let backup_name :=
    posixJoin (posixJoin work_dir "backup") (script_name ++ "_" ++ toString seq)
  let w1 := { w with hostFiles := w.hostFiles ++ [(backup_name, current)] }
  w1.sbWriteFile (posixJoin work_dir script_name) new_content

/-- The containment property in the words of the spec, for comparison with
the check the source performs: the canonicalized requested path lies inside
the canonicalized work root, that is, it is the root itself or a descendant
of it. -/
def spec_lies_inside (root p : String) : Prop :=
  p = root ∨ strStartsWith p (root ++ "/") = true

instance (root p : String) : Decidable (spec_lies_inside root p) := by
  unfold spec_lies_inside
  infer_instance

/-! ### The low-level action registry (LOW_LEVEL_ACTION_INFOS) -/

def LOW_LEVEL_ACTION_INFOS : List ActionInfo := [
  ⟨"List Files", "Use this to navigate the file system.",
    [("dir_path", "a valid relative path to a directory, such as \".\" or \"folder1/folder2\"")],
    "The observation will be a list of files and folders in dir_path or current directory is dir_path is empty, or an error message if dir_path is invalid.",
    true⟩,
  ⟨"Read File", "Use this to read an existing file.",
    [("file_name", "a valid file name with relative path to current directory if needed")],
    "The observation will be the contents of the file read.",
    true⟩,
  ⟨"Write File", "Use this to write a file. If the file already exists, it will be overwritten.",
    [("file_name", "a valid file name with relative path to current directory if needed"),
     ("content", "the content to be written to the file")],
    "A success message if the file is written successfully, or an error message if the file cannot be written.",
    true⟩,
  ⟨"Append File", "Use this to append a file to a new location with a new name.",
    [("file_name", "a valid file name with relative path to current directory if needed"),
     ("content", "the content to be appended to the file")],
    "A success message if the file is appended successfully, or an error message if the file cannot be appended.",
    true⟩,
  ⟨"Copy File", "Use this to copy a file to a new location with a new name.",
    [("source", "a valid file name with relative path to current directory if needed"),
     ("destination", "a valid file name with relative path to current directory if needed")],
    "A success message if the file is copied successfully, or an error message if the file cannot be copied.",
    true⟩,
  ⟨"Undo Edit Script", "Use this to undo the last edit of the python script.",
    [("script_name", "a valid python script name with relative path to current directory if needed")],
    "The observation will be the content of the script before the last edit. If the script does not exist, the observation will be an error message.",
    true⟩,
  ⟨"Execute Script", "Use this to execute the python script. The script must already exist.",
    [("script_name", "a valid python script name with relative path to current directory if needed")],
    "The observation will be output of the script or errors.",
    true⟩,
  ⟨"Python REPL", "A python REPL. Use this to execute single line python commands.",
    [("command", "a valid python command")],
    "The observation will be output of the command or errors.",
    true⟩,
  ⟨"Final Answer", "Use this to provide the final answer to the current task.",
    [("final_answer", "a detailed description on the final answer")],
    "The observation will be empty.",
    true⟩]

/-! ### General lemmas about the dispatcher -/

theorem execute_envAfter (env : Environment) (a : Action) (now : Int)
    (h : HandlerOutcome) : (env.execute a now h).envAfter = env := by
  unfold Environment.execute
  split
  · rfl
  · split
    · rfl
    · rcases hfind : find_action_info env.action_infos a.name with _ | info
      · simp [hfind]
      · rcases hargs : a.args with d | r
        · simp [hfind, hargs]
        · simp [hfind, hargs]

theorem is_final_mono {env : Environment} {now now2 : Int}
    (h : env.is_final now = true) (hle : now ≤ now2) : env.is_final now2 = true := by
  unfold Environment.is_final at h ⊢
  simp only [Bool.or_eq_true, decide_eq_true_eq] at h ⊢
  rcases h with (h | h) | h
  · exact Or.inl (Or.inl h)
  · exact Or.inl (Or.inr h)
  · exact Or.inr (by omega)

theorem execute_when_final {env : Environment} {now : Int} (a : Action)
    (h : HandlerOutcome) (hfin : env.is_final now = true)
    (hname : a.name ≠ "Final Answer") :
    env.execute a now h = ⟨.returns shutdown_observation, false, env⟩ := by
  unfold Environment.execute
  rw [if_neg, if_pos hfin]
  simp only [beq_iff_eq]
  exact hname

/-! ### Concrete fixtures used by witnesses and counterexamples -/

def fresh_trace : Trace := ⟨[], [], LOW_LEVEL_ACTION_INFOS, "task"⟩

/-- An environment whose step budget is already exhausted (max_steps = 0). -/
def env_steps_exhausted : Environment :=
  ⟨fresh_trace, 0, 0, 18000, LOW_LEVEL_ACTION_INFOS⟩

/-- An environment whose time budget is already exhausted at time 11. -/
def env_time_exhausted : Environment :=
  ⟨fresh_trace, 0, 50, 10, LOW_LEVEL_ACTION_INFOS⟩

/-- A fresh environment with room in both budgets at time 5. -/
def env_running : Environment :=
  ⟨fresh_trace, 0, 50, 18000, LOW_LEVEL_ACTION_INFOS⟩

theorem strStrip_append_newline (p : String) : strStrip (p ++ "\n") = strStrip p := by
  unfold strStrip
  have h : (p ++ "\n").toList = p.toList ++ ['\n'] := by simp [String.toList]
  rw [h, List.dropWhile_append]
  by_cases he : (List.dropWhile isPySpace p.toList).isEmpty
  · rw [if_pos he]
    have h2 : List.dropWhile isPySpace p.toList = [] := by
      simpa using he
    rw [h2]
    rfl
  · rw [if_neg he]
    rw [List.reverse_append]
    have h3 : isPySpace '\n' = true := by decide
    simp [List.dropWhile, h3]

/-! ### Claim C1 -/

/-- C1: the claim states that every execute call appends exactly one Step
with the action, observation and timestamp, so the steps sequence handed
out by the trace accessor is one longer after the call than before.  In the
code the append on environment.py line 199 targets the deep copy produced
by the trace property, so the environment trace never grows: execute
returns the environment unchanged, and after a concrete call on a fresh
environment the accessor still reports zero steps rather than one. -/
theorem C1_steps_never_appended :
    (∀ (env : Environment) (a : Action) (now : Int) (h : HandlerOutcome),
      ((env.execute a now h).envAfter).trace.steps.length = env.trace.steps.length) ∧
    ((env_running.execute ⟨"List Files", .dict [("dir_path", ".")]⟩ 5
        (.ok "ok")).envAfter.trace.steps.length = 0) := by
  constructor
  · intro env a now h
    rw [execute_envAfter]
  · rfl

/-! ### Claim C2 -/

/-- C2 counterexample: the claim requires every execute call on a final
environment to return the fixed shutdown observation, but the Final Answer
test precedes the is_final test, so a Final Answer action on a final
environment returns the terminal marker instead; moreover an environment
whose elapsed time exactly equals max_time is not final (the source compares
with a strict inequality) and still invokes the handler. -/
theorem C2_counterexample :
    env_steps_exhausted.is_final 5 = true ∧
    (env_steps_exhausted.execute ⟨"Final Answer", .dict [("final_answer", "d")]⟩ 5
        (.ok "")).result = .returns "end" ∧
    "end" ≠ shutdown_observation ∧
    env_running.is_final 18000 = false ∧
    (env_running.execute ⟨"List Files", .dict [("dir_path", ".")]⟩ 18000
        (.ok "listing")).handlerInvoked = true := by
  exact ⟨rfl, rfl, by decide, rfl, rfl⟩

/-- C2 (amended): once is_final holds - maximum steps recorded, a Final
Answer step recorded, or elapsed time strictly exceeding max_time - every
subsequent execute call whose action is not named Final Answer returns the
fixed shutdown observation, invokes no handler and leaves the environment
(hence also its low-level steps) unchanged, and the environment is still
final at every later time, so this persists permanently. -/
theorem C2_amended_shutdown_permanent (env : Environment) (a : Action)
    (now now2 : Int) (h : HandlerOutcome)
    (hfin : env.is_final now = true) (hle : now ≤ now2)
    (hname : a.name ≠ "Final Answer") :
    (env.execute a now2 h).result = .returns shutdown_observation ∧
    (env.execute a now2 h).handlerInvoked = false ∧
    (env.execute a now2 h).envAfter = env ∧
    env.is_final now2 = true := by
  have hfin2 := is_final_mono hfin hle
  rw [execute_when_final a h hfin2 hname]
  exact ⟨rfl, rfl, rfl, hfin2⟩

/-- C2 witness: the amended theorem applied on a step-exhausted environment
to a later List Files call. -/
theorem C2_amended_witness :
    (env_steps_exhausted.execute ⟨"List Files", .dict [("dir_path", ".")]⟩ 6
        (.ok "x")).result = .returns shutdown_observation ∧
    (env_steps_exhausted.execute ⟨"List Files", .dict [("dir_path", ".")]⟩ 6
        (.ok "x")).handlerInvoked = false ∧
    (env_steps_exhausted.execute ⟨"List Files", .dict [("dir_path", ".")]⟩ 6
        (.ok "x")).envAfter = env_steps_exhausted ∧
    env_steps_exhausted.is_final 6 = true :=
  C2_amended_shutdown_permanent env_steps_exhausted
    ⟨"List Files", .dict [("dir_path", ".")]⟩ 5 6 (.ok "x")
    (by rfl) (by decide) (by decide)

/-! ### Claim C4 -/

/-- C4 counterexample: the claim puts the budget-exhaustion check before
every other classification, including for the terminal action, but the code
tests the Final Answer name first: on a time-exhausted environment a Final
Answer action returns the terminal marker, not the shutdown observation. -/
theorem C4_counterexample :
    env_time_exhausted.is_final 11 = true ∧
    (env_time_exhausted.execute ⟨"Final Answer", .dict [("final_answer", "d")]⟩ 11
        (.ok "")).result = .returns "end" ∧
    ExecResult.returns "end" ≠ .returns shutdown_observation := by
  exact ⟨rfl, rfl, by decide⟩

/-- C4 (amended): for every action not named Final Answer, budget
exhaustion takes priority over every other classification: when is_final
holds, execute returns the shutdown observation without invoking a handler,
whatever the action name (unknown names included) and arguments. -/
theorem C4_amended_budget_first_for_nonterminal (env : Environment) (a : Action)
    (now : Int) (h : HandlerOutcome) (hfin : env.is_final now = true)
    (hname : a.name ≠ "Final Answer") :
    (env.execute a now h).result = .returns shutdown_observation ∧
    (env.execute a now h).handlerInvoked = false := by
  rw [execute_when_final a h hfin hname]
  exact ⟨rfl, rfl⟩

/-- C4 witness: the amended theorem applied to an unknown action name on a
time-exhausted environment. -/
theorem C4_amended_witness :
    (env_time_exhausted.execute ⟨"Bogus Action", .dict []⟩ 11 (.ok "")).result
      = .returns shutdown_observation ∧
    (env_time_exhausted.execute ⟨"Bogus Action", .dict []⟩ 11 (.ok "")).handlerInvoked
      = false :=
  C4_amended_budget_first_for_nonterminal env_time_exhausted
    ⟨"Bogus Action", .dict []⟩ 11 (.ok "") (by rfl) (by decide)

/-! ### Claim C9 -/

/-- Raised conditions that cross the execute boundary rather than being
returned as an observation. -/
def ExecResult.isRaise : ExecResult → Bool
  | .returns _ => false
  | .raisesTimeout _ => true
  | .raisesConnectionAborted => true

/-- The handler outcomes the except chain re-raises: a TimeoutException, or
a generic exception whose string contains the connection-aborted marker. -/
def HandlerOutcome.escalates : HandlerOutcome → Bool
  | .raises (.timeout _) => true
  | .raises (.other m) => connection_aborted_in m
  | _ => false

theorem handler_result_isRaise (n e : String) (h : HandlerOutcome) :
    (handler_result n e h).isRaise = h.escalates := by
  rcases h with obs | ex
  · rfl
  · rcases ex with _ | m | m | m | m | m
    · rfl
    · rfl
    · rfl
    · rfl
    · rfl
    · cases hc : connection_aborted_in m <;>
        simp [handler_result, HandlerOutcome.escalates, ExecResult.isRaise, hc]

theorem execute_handler_case {env : Environment} {a : Action} {now : Int}
    {h : HandlerOutcome}
    (hinv : (env.execute a now h).handlerInvoked = true) :
    ∃ info, find_action_info env.action_infos a.name = some info ∧
      (env.execute a now h).result
        = handler_result a.name (invalid_action_error a.name info) h := by
  unfold Environment.execute at hinv ⊢
  by_cases h1 : (a.name == "Final Answer") = true
  · rw [if_pos h1] at hinv
    exact absurd hinv Bool.false_ne_true
  · rw [if_neg h1] at hinv ⊢
    by_cases h2 : env.is_final now = true
    · rw [if_pos h2] at hinv
      exact absurd hinv Bool.false_ne_true
    · rw [if_neg h2] at hinv ⊢
      rcases hfind : find_action_info env.action_infos a.name with _ | info
      · rw [hfind] at hinv
        exact absurd hinv Bool.false_ne_true
      · rw [hfind] at hinv
        rcases hargs : a.args with d | r
        · rw [hargs] at hinv
          exact ⟨info, rfl, rfl⟩
        · rw [hargs] at hinv
          exact absurd hinv Bool.false_ne_true

/-- C9: whenever execute invokes the registered handler, the call raises
out of execute exactly when the handler outcome is a timeout or a generic
exception carrying the connection-aborted marker; every other raised
condition (too-long prompt, LLM backend error, environment error, malformed
arguments via TypeError, any other unexpected exception) is absorbed into
an observation returned normally. -/
theorem C9_propagation_policy (env : Environment) (a : Action) (now : Int)
    (h : HandlerOutcome)
    (hinv : (env.execute a now h).handlerInvoked = true) :
    (env.execute a now h).result.isRaise = h.escalates := by
  obtain ⟨info, hfind, hres⟩ := execute_handler_case hinv
  rw [hres, handler_result_isRaise]

/-- C9 witness: a running environment dispatching a well-formed List Files
action whose handler returns normally. -/
theorem C9_propagation_policy_witness :
    (env_running.execute ⟨"List Files", .dict [("dir_path", ".")]⟩ 5
        (.ok "listing")).result.isRaise
      = (HandlerOutcome.ok "listing").escalates :=
  C9_propagation_policy env_running ⟨"List Files", .dict [("dir_path", ".")]⟩ 5
    (.ok "listing") (by rfl)

/-! ### Claim C10 -/

/-- An empty sandbox world rooted at a concrete current directory. -/
def w_empty : World := ⟨"/home/user", [], [], [], [], ⟨"", "", 0⟩⟩

/-- C10: the read-only guard rejects a mutation exactly when the raw
file-name argument string equals, by string equality, some element of
read_only_files; shown on Write File, whose guard is the one shared with
Append File and Copy File.  No normalization happens at check time: the
dot-slash spelling of a protected file passes the guard even though both
spellings normalize to the same path, as the final two conjuncts show. -/
theorem C10_read_only_guard_is_raw_string_equality
    (file_name content work_dir : String) (read_only_files : List String)
    (now : Int) (trace : Trace) (w : World)
    (hok : check_files_in_work_dir w.cwd work_dir [file_name] = none) :
    ((write_file file_name content work_dir read_only_files now trace w).1
        = .envError ("cannot write file " ++ file_name ++ " because it is a read-only file.")
      ↔ file_name ∈ read_only_files) ∧
    check_files_read_only ["./protected.txt"] ["protected.txt"] = none ∧
    posixNormpath "./protected.txt" = posixNormpath "protected.txt" := by
  refine ⟨?_, by decide, by decide⟩
  unfold write_file
  rw [hok]
  by_cases hmem : file_name ∈ read_only_files
  · have hro : check_files_read_only [file_name] read_only_files
        = some ("cannot write file " ++ file_name ++ " because it is a read-only file.") := by
      simp [check_files_read_only, hmem]
    rw [hro]
    simpa using hmem
  · have hro : check_files_read_only [file_name] read_only_files = none := by
      simp [check_files_read_only, hmem]
    rw [hro]
    simp only [write_file_inner, record_low_level_step]
    simpa using hmem

/-- C10 witness: the guard theorem instantiated on a protected file in a
world where the containment check passes. -/
theorem C10_witness :
    (((write_file "protected.txt" "x" "wd" ["protected.txt"] 5 fresh_trace w_empty).1
        = .envError ("cannot write file " ++ "protected.txt" ++ " because it is a read-only file."))
      ↔ "protected.txt" ∈ ["protected.txt"]) ∧
    check_files_read_only ["./protected.txt"] ["protected.txt"] = none ∧
    posixNormpath "./protected.txt" = posixNormpath "protected.txt" :=
  C10_read_only_guard_is_raw_string_equality "protected.txt" "x" "wd"
    ["protected.txt"] 5 fresh_trace w_empty (by decide)

/-! ### Claim C6 -/

/-- C6 counterexample: the containment check is a raw string-prefix test on
lexically absolutized paths.  The request wd/../wd2/secret canonicalizes to
/home/user/wd2/secret, which does not lie inside the work root /home/user/wd,
yet the guard accepts it (the sibling directory name extends the root as a
string) and the executor is invoked: the read issues its cat call. -/
theorem C6_counterexample :
    check_files_in_work_dir "/home/user" "wd" ["../wd2/secret"] = none ∧
    ¬ spec_lies_inside (posixAbspath "/home/user" "wd")
        (posixAbspath "/home/user" (posixJoin "wd" "../wd2/secret")) ∧
    (read_file "../wd2/secret" "wd" 5 fresh_trace w_empty).2.1.execCalls.length = 1 := by
  refine ⟨by decide, by decide, by decide⟩

/-- C6 (amended): the guard compares abspath(work_dir/p) against
abspath(work_dir) by string prefix, with lexical canonicalization only (no
symlink resolution), and when this test fails for one of an operation's
guarded path arguments the operation returns the contained-path
EnvException with no executor call issued: the world (exec log, write log
and both file systems) and the trace are returned unchanged. -/
theorem C6_amended_guard_rejects_before_executor (op : LowOp) (work_dir : String)
    (read_only_files : List String) (now : Int) (trace : Trace) (w : World)
    (msg : String)
    (hfail : check_files_in_work_dir w.cwd work_dir op.guardedArgs = some msg) :
    runLowOp op work_dir read_only_files now trace w = (.envError msg, w, trace) := by
  cases op <;>
    simp only [LowOp.guardedArgs] at hfail <;>
    simp only [runLowOp, list_files, read_file, write_file, append_file,
      copy_file, undo_edit_script, execute_script] <;>
    rw [hfail]

/-- C6 witness: a traversal that also fails the string-prefix test is
rejected with the executor untouched. -/
theorem C6_amended_witness :
    runLowOp (.readFileOp "../../etc/passwd") "wd" [] 5 fresh_trace w_empty
      = (.envError "cannot access file ../../etc/passwd because it is not in the work directory.",
         w_empty, fresh_trace) :=
  C6_amended_guard_rejects_before_executor (.readFileOp "../../etc/passwd") "wd"
    [] 5 fresh_trace w_empty
    "cannot access file ../../etc/passwd because it is not in the work directory."
    (by decide)

/-! ### Claim C5 -/

/-- A world in which the protected script has current content new, and a
single backup with content old exists on the host. -/
def c5_world : World :=
  ⟨"/home/user", [("wd/s.py", "new")], [("wd/backup/s.py_1", "old")], [], [], ⟨"", "", 0⟩⟩

/-- C5 counterexample: undo_edit_script carries no read-only guard: with
s.py a member of the read-only set, the restore step succeeds and
overwrites the protected file (its content changes from new to old),
whereas the claim requires the restore to fail with the Read-Only
classification and leave the content unchanged. -/
theorem C5_counterexample :
    "s.py" ∈ ["s.py"] ∧
    (undo_edit_script "s.py" "wd" 9 fresh_trace c5_world).1
      = .ok "Content of s.py after undo the most recent edit:\nold" ∧
    (undo_edit_script "s.py" "wd" 9 fresh_trace c5_world).2.1.fsGet "wd/s.py" = some "old" ∧
    c5_world.fsGet "wd/s.py" = some "new" := by
  refine ⟨by decide, by decide, by decide, by decide⟩

/-- C5 (amended): for p in the read-only set, write(p), append(p) and copy
with destination p all fail with the read-only EnvException and return the
world unchanged (hence the content of the file at p unchanged), provided
the containment guard that runs first passes; the restore step of undo is
not subject to the read-only guard (see the counterexample). -/
theorem C5_amended_read_only_enforced_except_undo (p content src work_dir : String)
    (read_only_files : List String) (now : Int) (trace : Trace) (w : World)
    (hmem : p ∈ read_only_files)
    (hok1 : check_files_in_work_dir w.cwd work_dir [p] = none)
    (hok2 : check_files_in_work_dir w.cwd work_dir [src, p] = none) :
    (write_file p content work_dir read_only_files now trace w)
      = (.envError ("cannot write file " ++ p ++ " because it is a read-only file."), w, trace) ∧
    (append_file p content work_dir read_only_files now trace w)
      = (.envError ("cannot write file " ++ p ++ " because it is a read-only file."), w, trace) ∧
    (copy_file src p work_dir read_only_files now trace w)
      = (.envError ("cannot write file " ++ p ++ " because it is a read-only file."), w, trace) := by
  have hro : check_files_read_only [p] read_only_files
      = some ("cannot write file " ++ p ++ " because it is a read-only file.") := by
    simp [check_files_read_only, hmem]
  refine ⟨?_, ?_, ?_⟩
  · unfold write_file
    rw [hok1, hro]
  · unfold append_file
    rw [hok1, hro]
  · unfold copy_file
    rw [hok2]
    have hro2 : check_files_read_only [p] read_only_files
        = some ("cannot write file " ++ p ++ " because it is a read-only file.") := hro
    rw [hro2]

/-- C5 witness: the amended theorem instantiated on a concrete protected
path inside the work directory. -/
theorem C5_amended_witness :
    (write_file "s.py" "x" "wd" ["s.py"] 5 fresh_trace c5_world)
      = (.envError ("cannot write file " ++ "s.py" ++ " because it is a read-only file."),
         c5_world, fresh_trace) ∧
    (append_file "s.py" "x" "wd" ["s.py"] 5 fresh_trace c5_world)
      = (.envError ("cannot write file " ++ "s.py" ++ " because it is a read-only file."),
         c5_world, fresh_trace) ∧
    (copy_file "other.py" "s.py" "wd" ["s.py"] 5 fresh_trace c5_world)
      = (.envError ("cannot write file " ++ "s.py" ++ " because it is a read-only file."),
         c5_world, fresh_trace) :=
  C5_amended_read_only_enforced_except_undo "s.py" "x" "other.py" "wd" ["s.py"]
    5 fresh_trace c5_world (by decide) (by decide) (by decide)

/-! ### Claim C3 -/

/-- C3: the claim requires every physical operation, including failed
attempts, to be appended to the environment lowLevelSteps with the error
message as the observation.  In the code record_low_level_step catches only
EnvironmentError (OSError), while every body converts its failures to
EnvException, a plain Exception subclass the handler does not match, so a
failed attempt is recorded nowhere: a failed append on a missing file and a
read-only-rejected write both leave low_level_steps empty, while a
successful write does append one record - and by C1 even that record lands
in the deep-copied trace the dispatcher hands to the handler and discards. -/
theorem C3_failed_attempts_not_recorded :
    (append_file "missing.txt" "x" "wd" [] 7 fresh_trace w_empty).1
      = .envError "cannot append file missing.txt" ∧
    (append_file "missing.txt" "x" "wd" [] 7 fresh_trace w_empty).2.2.low_level_steps = [] ∧
    (write_file "ro.txt" "x" "wd" ["ro.txt"] 7 fresh_trace w_empty).2.2.low_level_steps = [] ∧
    (write_file "a.txt" "hi" "wd" [] 7 fresh_trace w_empty).2.2.low_level_steps.length = 1 := by
  refine ⟨by decide, by decide, by decide, by decide⟩

/-! ### Claim C7 -/

/-- C7 counterexample: when the script is missing, the observation does
state that the file does not exist and the script itself is never run, but
the claim that no subprocess is spawned fails: the existence probe is
itself a sandbox exec of ls, recorded here as the one spawned command. -/
theorem C7_counterexample :
    (execute_script "missing.py" "wd" 0 "python" 5 fresh_trace w_empty).1
      = .envError "The file missing.py does not exist." ∧
    (execute_script "missing.py" "wd" 0 "python" 5 fresh_trace w_empty).2.1.execCalls
      = [⟨["ls", "wd/missing.py"], none, []⟩] := by
  refine ⟨by decide, by decide⟩

/-- C7 (amended): execute_script first probes existence with a dedicated
sandbox ls exec rather than exception handling; when the script is missing
it fails with the Environment error naming the file and issues no further
exec call, in particular none running the script; when the script exists it
issues exactly one further exec, the python command on the script with
CUDA_VISIBLE_DEVICES injected and work_dir as cwd, and the observation is
the fixed banner followed by stderr when the exit code is non-zero, else
stdout, falling back to stderr when stdout is empty. -/
theorem C7_amended_probe_then_run (script_name work_dir : String) (device : Int)
    (python : String) (now : Int) (trace : Trace) (w : World)
    (hok : check_files_in_work_dir w.cwd work_dir [script_name] = none) :
    (w.fsGet (posixJoin work_dir script_name) = none →
      (execute_script script_name work_dir device python now trace w).1
        = .envError ("The file " ++ script_name ++ " does not exist.") ∧
      (execute_script script_name work_dir device python now trace w).2.1.execCalls
        = w.execCalls ++ [⟨["ls", posixJoin work_dir script_name], none, []⟩] ∧
      (execute_script script_name work_dir device python now trace w).2.2 = trace) ∧
    (∀ c, w.fsGet (posixJoin work_dir script_name) = some c →
      strStrip (posixJoin work_dir script_name) ≠ "" →
      (execute_script script_name work_dir device python now trace w).1
        = .ok ("The script has been executed. Here is the output:\n" ++
            (if w.scriptResult.returncode ≠ 0 then w.scriptResult.stderr
             else if w.scriptResult.stdout = "" then w.scriptResult.stderr
             else w.scriptResult.stdout)) ∧
      (execute_script script_name work_dir device python now trace w).2.1.execCalls
        = w.execCalls ++ [⟨["ls", posixJoin work_dir script_name], none, []⟩,
            ⟨[python, "-u", script_name], some work_dir,
              [("CUDA_VISIBLE_DEVICES", toString device)]⟩]) := by
  constructor
  · intro hmiss
    unfold execute_script
    rw [hok]
    unfold execute_script_inner World.sbExec
    simp only [hmiss, Option.isSome_none, Bool.false_eq_true, if_false, if_pos rfl]
    refine ⟨rfl, rfl, rfl⟩
  · intro c hc hne
    unfold execute_script
    rw [hok]
    unfold execute_script_inner World.sbExec
    simp only [hc, Option.isSome_some, if_pos rfl, if_true]
    rw [strStrip_append_newline, if_neg hne]
    refine ⟨rfl, ?_⟩
    rw [List.append_assoc]
    rfl

/-- C7 witness: a world containing the script, run with a failing result,
and the missing-script case on a fresh name. -/
theorem C7_amended_witness :
    (c5_world.fsGet (posixJoin "wd" "absent.py") = none →
      (execute_script "absent.py" "wd" 0 "python" 5 fresh_trace c5_world).1
        = .envError ("The file " ++ "absent.py" ++ " does not exist.") ∧
      (execute_script "absent.py" "wd" 0 "python" 5 fresh_trace c5_world).2.1.execCalls
        = c5_world.execCalls ++ [⟨["ls", posixJoin "wd" "absent.py"], none, []⟩] ∧
      (execute_script "absent.py" "wd" 0 "python" 5 fresh_trace c5_world).2.2 = fresh_trace) ∧
    (∀ c, c5_world.fsGet (posixJoin "wd" "absent.py") = some c →
      strStrip (posixJoin "wd" "absent.py") ≠ "" →
      (execute_script "absent.py" "wd" 0 "python" 5 fresh_trace c5_world).1
        = .ok ("The script has been executed. Here is the output:\n" ++
            (if c5_world.scriptResult.returncode ≠ 0 then c5_world.scriptResult.stderr
             else if c5_world.scriptResult.stdout = "" then c5_world.scriptResult.stderr
             else c5_world.scriptResult.stdout)) ∧
      (execute_script "absent.py" "wd" 0 "python" 5 fresh_trace c5_world).2.1.execCalls
        = c5_world.execCalls ++ [⟨["ls", posixJoin "wd" "absent.py"], none, []⟩,
            ⟨["python", "-u", "absent.py"], some "wd",
              [("CUDA_VISIBLE_DEVICES", toString (0 : Int))]⟩]) :=
  C7_amended_probe_then_run "absent.py" "wd" 0 "python" 5 fresh_trace c5_world (by decide)

/-! ### Claim C8 -/

/-- A world whose script has its original content and no backups yet. -/
def c8_w0 : World :=
  ⟨"/home/user", [("wd/train.py", "original")], [], [], [], ⟨"", "", 0⟩⟩

def c8_w3 : World :=
  push_backup_and_edit "wd" "train.py" 3 "after-e3"
    (push_backup_and_edit "wd" "train.py" 2 "after-e2"
      (push_backup_and_edit "wd" "train.py" 1 "after-e1" c8_w0))

def c8_u1 : LowResult × World × Trace :=
  undo_edit_script "train.py" "wd" 21 fresh_trace c8_w3

def c8_u2 : LowResult × World × Trace :=
  undo_edit_script "train.py" "wd" 22 c8_u1.2.2 c8_u1.2.1

def c8_u3 : LowResult × World × Trace :=
  undo_edit_script "train.py" "wd" 23 c8_u2.2.2 c8_u2.2.1

def c8_u4 : LowResult × World × Trace :=
  undo_edit_script "train.py" "wd" 24 c8_u3.2.2 c8_u3.2.1

/-- C8: when no backup entry for the script exists the operation fails with
the Nothing-To-Undo EnvException and changes nothing (first conjunct, for
every world); and after edits e1, e2, e3 to train.py (each pushing the
pre-edit content, per the spec-modelled backup push), three successive
undos restore the content before e3, then the content before e2, then the
original, returning each restored content in the observation and removing
exactly one backup entry per undo, and the fourth undo fails with
Nothing-To-Undo. -/
theorem C8_undo_lifo :
    (∀ (script_name work_dir : String) (now : Int) (trace : Trace) (w : World),
      check_files_in_work_dir w.cwd work_dir [script_name] = none →
      glob_backup_files w work_dir script_name = [] →
      undo_edit_script script_name work_dir now trace w
        = (.envError "There is no change to undo.", w, trace)) ∧
    c8_u1.1 = .ok "Content of train.py after undo the most recent edit:\nafter-e2" ∧
    c8_u1.2.1.fsGet "wd/train.py" = some "after-e2" ∧
    c8_u1.2.1.hostFiles.length = 2 ∧
    c8_u2.1 = .ok "Content of train.py after undo the most recent edit:\nafter-e1" ∧
    c8_u2.2.1.fsGet "wd/train.py" = some "after-e1" ∧
    c8_u2.2.1.hostFiles.length = 1 ∧
    c8_u3.1 = .ok "Content of train.py after undo the most recent edit:\noriginal" ∧
    c8_u3.2.1.fsGet "wd/train.py" = some "original" ∧
    c8_u3.2.1.hostFiles.length = 0 ∧
    c8_u4.1 = .envError "There is no change to undo." := by
  refine ⟨?_, by decide, by decide, by decide, by decide, by decide, by decide,
    by decide, by decide, by decide, by decide⟩
  intro script_name work_dir now trace w hok hemp
  unfold undo_edit_script
  rw [hok]
  unfold undo_edit_script_inner
  rw [hemp]
  rfl

/-- C8 witness: the empty-backup case of the theorem applied to a script
with no backup entries. -/
theorem C8_undo_lifo_witness :
    undo_edit_script "other.py" "wd" 30 fresh_trace c8_w0
      = (.envError "There is no change to undo.", c8_w0, fresh_trace) :=
  C8_undo_lifo.1 "other.py" "wd" 30 fresh_trace c8_w0 (by decide) (by decide)

end MLAgentBench
